import Mathlib

/-!
Shallow embedding of the go-chat-monitoring server core (src/app/main.go):
the message data model, the persistence call `saveMessage`, the WebSocket
connection handler loop `handleWebSocket`, the REST submission handler
`createMessage`, the broadcast fan-out loop `handleBroadcast`, the
connection-registry state (`clients` map plus the `websocket_connections_active`
gauge), and the `getStats` endpoint.

External effects are made explicit parameters: the outcome of a database call
is an `Except Unit _` argument, clock reads are `Int` arguments, per-connection
write outcomes are a `Nat → Bool` argument, and readiness of the (unbuffered)
broadcast channel receiver is a `Bool` argument.
-/

namespace ChatMonitoring

/-- The `Message` struct of main.go. `time.Time` values are modelled as `Int`
instants. -/
structure Message where
  id : Int
  userId : Int
  username : String
  content : String
  createdAt : Int
  deriving Repr, DecidableEq

/-- The `CreateMessageRequest` struct of main.go (REST body). Its `validate`
tags (`required`, `min=1,max=1000` on `Content`) are struct-tag metadata only;
no validator is ever invoked in main.go. -/
structure CreateMessageRequest where
  userId : Int
  username : String
  content : String
  deriving Repr, DecidableEq

/-- The row written by `saveMessage`'s INSERT:
`INSERT INTO messages (user_id, username, content, created_at) VALUES ($1,$2,$3,$4) RETURNING id`.
The `id` column is assigned by the database (SERIAL). -/
structure StoredRow where
  id : Int
  userId : Int
  username : String
  content : String
  createdAt : Int
  deriving Repr, DecidableEq

/-- The database-side environment of one successful INSERT: the id the SERIAL
sequence will assign, and the database clock `CURRENT_TIMESTAMP` at the moment
of the write. -/
structure DBEnv where
  nextId : Int
  dbNow : Int
  deriving Repr, DecidableEq

/-- The row that `saveMessage`'s INSERT writes when it succeeds with database
environment `env`: the four column values come from the caller's `msg` fields
(`$1..$4` are `msg.UserID, msg.Username, msg.Content, msg.CreatedAt`), and the
id from the SERIAL sequence. `env.dbNow` is not used: the INSERT supplies
`created_at` explicitly, so the column default `CURRENT_TIMESTAMP` does not
apply, and `msg.id` is not mentioned by the INSERT at all. -/
def insertedRow (msg : Message) (env : DBEnv) : StoredRow :=
  { id := env.nextId
    userId := msg.userId
    username := msg.username
    content := msg.content
    createdAt := msg.createdAt }

/-- `saveMessage(msg *Message) error`: runs the INSERT and scans the returned
id into `msg.ID`. `dbRes` is the outcome of the database round trip: on
`.ok i` the query succeeded and returned id `i`; on `.error` the call returns
the error and `msg` is unchanged (the caller discards it). All fields other
than `ID` are untouched by the scan. -/
def saveMessage (dbRes : Except Unit Int) (msg : Message) : Except Unit Message :=
  match dbRes with
  | .error e => .error e
  | .ok i => .ok { msg with id := i }

/-- Control outcome of one iteration of the `handleWebSocket` read loop. -/
inductive LoopControl
  | next
  | exit
  deriving Repr, DecidableEq

/-- Observable outcome of one iteration of the `handleWebSocket` read loop:
whether `saveMessage` was invoked, the message handed to the `broadcast`
channel (if any; the WS path uses a plain blocking send, so a send always
hands the message over), and whether the loop continues or breaks. -/
structure WsStepResult where
  storeInvoked : Bool
  enqueued : Option Message
  control : LoopControl
  deriving Repr, DecidableEq

/-- One iteration of the read loop in `handleWebSocket`:
`c.ReadJSON(&msg)` error ⇒ log and `break` (no store, no send);
otherwise `msg.CreatedAt = time.Now()` (overwriting any client-supplied
timestamp), then `saveMessage(&msg)`: on error log and `continue` (no send);
on success `messagesTotal.Inc()` and `broadcast <- msg` (blocking send of the
now-identified message). `read` is the outcome of `ReadJSON` (an error covers
both transport failures and JSON parse/validation failures — the code does not
distinguish them), `dbRes` the database outcome, `now` the handler's clock. -/
def wsStep (read : Except Unit Message) (dbRes : Except Unit Int) (now : Int) :
    WsStepResult :=
  match read with
  | .error _ => { storeInvoked := false, enqueued := none, control := .exit }
  | .ok m =>
    let m := { m with createdAt := now }
    match saveMessage dbRes m with
    | .error _ => { storeInvoked := true, enqueued := none, control := .next }
    | .ok stored => { storeInvoked := true, enqueued := some stored, control := .next }

/-- The `handleWebSocket` read loop run over a list of per-iteration inputs
(ReadJSON outcome paired with the database outcome). Returns the messages
handed to the `broadcast` channel, in order, paired with `true` iff the loop
exited via `break` — in which case the function returns and its deferred
cleanup (`delete(clients, c); activeConnections.Dec(); c.Close()`) detaches
the connection. Once the loop breaks, the remaining inputs are never read. If
the input list is exhausted the handler is still blocked in `ReadJSON`
(`false`: not detached). -/
def handleWebSocket (now : Int) :
    List (Except Unit Message × Except Unit Int) → List Message × Bool
  | [] => ([], false)
  | (read, dbRes) :: rest =>
    let r := wsStep read dbRes now
    match r.control with
    | .exit => ([], true)
    | .next =>
      let (msgs, detached) := handleWebSocket now rest
      (r.enqueued.toList ++ msgs, detached)

/-- Observable outcome of the REST handler `createMessage`: HTTP status,
whether `saveMessage` was invoked, and the message handed to the `broadcast`
channel (if any). -/
structure RestResult where
  status : Nat
  storeInvoked : Bool
  enqueued : Option Message
  deriving Repr, DecidableEq

/-- `createMessage(c *fiber.Ctx)`: parse the body (400 on failure, nothing
stored); build `msg` with `CreatedAt: time.Now()` and zero `ID`; `saveMessage`
(500 on failure, nothing sent); then `select { case broadcast <- msg: default: }`
— a non-blocking send on the unbuffered `broadcast` channel, which hands the
message over only when the `handleBroadcast` goroutine is currently ready to
receive (`routerReady`), and otherwise falls through to `default`, dropping the
send; finally 201 with the stored message. -/
def createMessage (body : Except Unit CreateMessageRequest)
    (dbRes : Except Unit Int) (now : Int) (routerReady : Bool) : RestResult :=
  match body with
  | .error _ => { status := 400, storeInvoked := false, enqueued := none }
  | .ok req =>
    let msg : Message :=
      { id := 0, userId := req.userId, username := req.username
        content := req.content, createdAt := now }
    match saveMessage dbRes msg with
    | .error _ => { status := 500, storeInvoked := true, enqueued := none }
    | .ok stored =>
      { status := 201, storeInvoked := true
        enqueued := if routerReady then some stored else none }

/-- The mutable server state touched by connection lifecycle code: the global
`clients` map (connections modelled as `Nat` identities; the map's values are
always `true`, so a `Finset` suffices) and the `websocket_connections_active`
prometheus gauge. -/
structure ServerState where
  clients : Finset Nat
  gauge : Int
  deriving DecidableEq

/-- Entry of `handleWebSocket`: `clients[c] = true; activeConnections.Inc()`. -/
def attachConn (c : Nat) (st : ServerState) : ServerState :=
  { clients := insert c st.clients, gauge := st.gauge + 1 }

/-- The deferred cleanup of `handleWebSocket`:
`delete(clients, c); activeConnections.Dec(); c.Close()`. The delete and the
gauge decrement are unconditional — they run whether or not `c` is still in
the map. -/
def handlerCleanup (c : Nat) (st : ServerState) : ServerState :=
  { clients := st.clients.erase c, gauge := st.gauge - 1 }

/-- The write-failure branch of `handleBroadcast`:
`client.Close(); delete(clients, client); activeConnections.Dec()` — likewise
unconditional. -/
def broadcastRemove (c : Nat) (st : ServerState) : ServerState :=
  { clients := st.clients.erase c, gauge := st.gauge - 1 }

/-- One round of `handleBroadcast` for a dequeued message: iterate over the
member list (the range over `clients` visits each current key once), write the
message to each connection (`w c = true` iff `client.WriteJSON(msg)` succeeds);
on a write failure the client is closed and removed (`broadcastRemove`) and the
loop continues with the next member. Returns the list of connections the
message was delivered to, and the resulting state. -/
def handleBroadcast (w : Nat → Bool) (members : List Nat) (st : ServerState) :
    List Nat × ServerState :=
  match members with
  | [] => ([], st)
  | c :: rest =>
    match w c with
    | true => (c :: (handleBroadcast w rest st).1, (handleBroadcast w rest st).2)
    | false => handleBroadcast w rest (broadcastRemove c st)

/-- The `/stats` handler `getStats`: returns the two COUNT(*) results, the
current `len(clients)`, and `"uptime": time.Since(time.Now()).String()`. The
two clock reads of `time.Since(time.Now())` occur in one expression evaluation
and are modelled as the same instant `now`; the process start time
(`startTime`) is never read by the handler. -/
structure StatsResponse where
  messages : Nat
  users : Nat
  activeConnections : Nat
  uptime : Int
  deriving Repr, DecidableEq

def getStats (messageCount userCount : Nat) (clients : Finset Nat)
    (startTime now : Int) : StatsResponse :=
  { messages := messageCount
    users := userCount
    activeConnections := clients.card
    uptime := now - now }

/-!
Interleaving model of registry mutations concurrent with a broadcast round.

The `clients` map is a plain Go map shared between the `handleBroadcast`
goroutine (which ranges over it and writes to each visited connection) and
every `handleWebSocket` goroutine (which inserts on attach and deletes in its
deferred cleanup), with no mutex and no snapshot anywhere in main.go. A round
is therefore a sequence of per-connection write events interleaved with
attach/detach events from the handler goroutines; a write targets a connection
that is a member of the map at the moment of that write (the range produced
it). Membership evolves event by event.
-/

/-- An event visible during one broadcast round: the router writing the
message to connection `c`, a handler goroutine attaching `c`
(`clients[c] = true`), or one detaching `c` (`delete(clients, c)`). -/
inductive Ev
  | write (c : Nat)
  | attachEv (c : Nat)
  | detachEv (c : Nat)
  deriving Repr, DecidableEq

/-- Effect of one event on registry membership: writes do not change it,
attach inserts, detach deletes. -/
def evStep (s : Finset Nat) : Ev → Finset Nat
  | .write _ => s
  | .attachEv c => insert c s
  | .detachEv c => s.erase c

/-- All instantaneous membership states along a trace, the initial and final
states included. -/
def membershipsFrom (s : Finset Nat) : List Ev → List (Finset Nat)
  | [] => [s]
  | e :: rest => s :: membershipsFrom (evStep s e) rest

/-- A trace is write-valid from membership `s` when every `write c` event
occurs while `c` is a current member of the map — i.e. the trace is one the
unsynchronized range loop can produce: it only writes to connections it finds
in the map at that moment. -/
def writesValid (s : Finset Nat) : List Ev → Bool
  | [] => true
  | .write c :: rest => decide (c ∈ s) && writesValid s rest
  | e :: rest => writesValid (evStep s e) rest

/-- The set of connections the round wrote the message to. -/
def writtenSet : List Ev → Finset Nat
  | [] => ∅
  | .write c :: rest => insert c (writtenSet rest)
  | _ :: rest => writtenSet rest

/-- A round interleaved with handler activity: starting from members `1` and
`2`, the router writes to `1`; connection `1`'s handler then detaches it (read
error); a new client `3` attaches; the router goes on to write to `2` and to
`3`. -/
def raceTrace : List Ev :=
  [.write 1, .detachEv 1, .attachEv 3, .write 2, .write 3]

/-!  Concrete inputs used by witnesses and counterexamples.  -/

/-- A well-formed inbound message draft. -/
def sampleMsg : Message :=
  { id := 0, userId := 1, username := "alice", content := "hi", createdAt := 0 }

/-- A body of 1001 characters — beyond the `max=1000` bound that
`CreateMessageRequest`'s `validate` tag declares for `Content`. -/
def longContent : String :=
  String.mk (List.replicate 1001 'a')

/-- An inbound message whose body is `longContent`. -/
def longMsg : Message :=
  { id := 0, userId := 1, username := "alice", content := longContent, createdAt := 0 }

/-- A REST body whose content is `longContent`. -/
def longReq : CreateMessageRequest :=
  { userId := 1, username := "alice", content := longContent }

/-- Handler-loop input for the malformed-message scenario: the first
`ReadJSON` fails (e.g. the client sent invalid JSON), a well-formed message
follows it. -/
def malformedThenOk : List (Except Unit Message × Except Unit Int) :=
  [(.error (), .ok 1), (.ok sampleMsg, .ok 2)]

/-- A well-formed REST body. -/
def sampleReq : CreateMessageRequest :=
  { userId := 1, username := "alice", content := "hi" }

/-- A message draft carrying a caller-supplied id and timestamp, and a
database environment whose clock disagrees with that timestamp. -/
def staleMsg : Message :=
  { id := 42, userId := 1, username := "alice", content := "hi", createdAt := 5 }

def dbEnv99 : DBEnv :=
  { nextId := 7, dbNow := 99 }

/-!  Helper lemmas about one broadcast round.  -/

/-- The connections a round delivers to are exactly the members whose write
succeeds: one member's failure removes only that member and the iteration
continues. -/
theorem handleBroadcast_delivered (w : Nat → Bool) (members : List Nat)
    (st : ServerState) :
    (handleBroadcast w members st).1 = members.filter w := by
  induction members generalizing st with
  | nil => rfl
  | cons c rest ih =>
    cases hw : w c <;> simp [handleBroadcast, hw, List.filter_cons, ih]

/-- Membership after a round: a connection survives iff it was in the state
before the round and, when it was a member of the iterated list, its write
succeeded. -/
theorem mem_handleBroadcast_clients (w : Nat → Bool) (members : List Nat)
    (st : ServerState) (x : Nat) :
    x ∈ (handleBroadcast w members st).2.clients ↔
      x ∈ st.clients ∧ (x ∈ members → w x = true) := by
  induction members generalizing st with
  | nil => simp [handleBroadcast]
  | cons c rest ih =>
    cases hw : w c with
    | true =>
      simp only [handleBroadcast, hw, ih, List.mem_cons]
      constructor
      · rintro ⟨hx, himp⟩
        exact ⟨hx, fun hm => hm.elim (fun hxc => hxc ▸ hw) himp⟩
      · rintro ⟨hx, himp⟩
        exact ⟨hx, fun hm => himp (Or.inr hm)⟩
    | false =>
      simp only [handleBroadcast, hw, ih, broadcastRemove,
        Finset.mem_erase, List.mem_cons]
      constructor
      · rintro ⟨⟨hxc, hx⟩, himp⟩
        refine ⟨hx, fun hm => ?_⟩
        rcases hm with rfl | hm
        · exact absurd rfl hxc
        · exact himp hm
      · rintro ⟨hx, himp⟩
        have hxc : x ≠ c := by
          rintro rfl
          exact absurd (himp (Or.inl rfl)) (by simp [hw])
        exact ⟨⟨hxc, hx⟩, fun hm => himp (Or.inr hm)⟩

/-!  Claim theorems.  -/

/-- C1: the claim says every broadcast round writes to a consistent
point-in-time snapshot of registry membership, with concurrent attach/detach
atomic with respect to the iteration. In the interleaving model of the
unsynchronized `clients` map this fails: along `raceTrace` every write targets
a then-current member (`writesValid`), yet the set of connections the round
wrote to equals the membership at no instant of the round — no snapshot
exists. -/
theorem claim1_broadcast_round_not_a_snapshot :
    writesValid {1, 2} raceTrace = true ∧
    writtenSet raceTrace ∉ membershipsFrom {1, 2} raceTrace := by decide

/-- C2: on both entry paths, a message is handed to the `broadcast` channel
only when the `saveMessage` database call succeeded, and the enqueued
message's id is exactly the identifier the database returned; in particular a
store error never enqueues. -/
theorem claim2_enqueue_only_after_store_success
    (read : Except Unit Message) (body : Except Unit CreateMessageRequest)
    (dbRes : Except Unit Int) (now : Int) (ready : Bool) (m : Message)
    (h : (wsStep read dbRes now).enqueued = some m ∨
         (createMessage body dbRes now ready).enqueued = some m) :
    ∃ i, dbRes = Except.ok i ∧ m.id = i := by
  rcases dbRes with e | i
  · exfalso
    rcases h with h | h
    · rcases read with e' | m' <;> simp [wsStep, saveMessage] at h
    · rcases body with e' | req <;> simp [createMessage, saveMessage] at h
  · refine ⟨i, rfl, ?_⟩
    rcases h with h | h
    · rcases read with e' | m' <;> simp [wsStep, saveMessage] at h
      rw [← h]
    · rcases body with e' | req <;> simp [createMessage, saveMessage] at h
      rcases ready with _ | _ <;> simp at h
      rw [← h]

/-- Witness for C2 at a concrete input: the WebSocket path with a successful
read and a store that returns id 7 enqueues a message whose id is 7. -/
theorem claim2_witness :
    ∃ i, (Except.ok 7 : Except Unit Int) = Except.ok i ∧
      ({ id := 7, userId := 1, username := "alice", content := "hi",
         createdAt := 3 } : Message).id = i :=
  claim2_enqueue_only_after_store_success (.ok sampleMsg) (.error ()) (.ok 7) 3
    true _ (Or.inl rfl)

/-- C3: in a broadcast round over member list `members`, a write failure on
`c` does not abort the round — the delivered list is exactly the members whose
write succeeds (every member is attempted, each unaffected by the others'
failures), any other member `d` with a successful write receives the message,
and `c` is no longer in the registry when the round ends. -/
theorem claim3_write_failure_isolated (w : Nat → Bool) (members : List Nat)
    (st : ServerState) (c d : Nat)
    (hc : c ∈ members) (hcw : w c = false) (hd : d ∈ members) (hdw : w d = true) :
    (handleBroadcast w members st).1 = members.filter w ∧
    d ∈ (handleBroadcast w members st).1 ∧
    c ∉ (handleBroadcast w members st).2.clients := by
  refine ⟨handleBroadcast_delivered w members st, ?_, ?_⟩
  · rw [handleBroadcast_delivered]
    exact List.mem_filter.mpr ⟨hd, hdw⟩
  · intro hmem
    have hsurv := ((mem_handleBroadcast_clients w members st c).mp hmem).2 hc
    rw [hcw] at hsurv
    exact Bool.false_ne_true hsurv

/-- Witness for C3 at a concrete input: members 1 and 2, the write to 1
fails, the write to 2 succeeds. -/
theorem claim3_witness :
    (handleBroadcast (fun c => c != 1) [1, 2] ⟨{1, 2}, 2⟩).1 =
      [1, 2].filter (fun c => c != 1) ∧
    2 ∈ (handleBroadcast (fun c => c != 1) [1, 2] ⟨{1, 2}, 2⟩).1 ∧
    1 ∉ (handleBroadcast (fun c => c != 1) [1, 2] ⟨{1, 2}, 2⟩).2.clients :=
  claim3_write_failure_isolated (fun c => c != 1) [1, 2] ⟨{1, 2}, 2⟩ 1 2
    (by decide) (by decide) (by decide) (by decide)

/-- C4 counterexample: the claim says a message that fails parsing is
discarded while the connection stays attached and the handler keeps reading.
On the concrete input `malformedThenOk` (a failed `ReadJSON` followed by a
well-formed message) the code instead breaks out of the read loop: the
deferred cleanup detaches the connection (the flag is `true`, refuting the
claimed `false`) and the well-formed second message is never read, so nothing
is ever enqueued. -/
theorem claim4_counterexample :
    ¬ ((handleWebSocket 0 malformedThenOk).2 = false) ∧
    (handleWebSocket 0 malformedThenOk).1 = [] := by
  constructor
  · decide
  · rfl

/-- C4 amended: any `ReadJSON` failure — transport error or JSON parse
failure alike, the code does not distinguish them — makes the handler log and
`break`: nothing is stored or enqueued for that input, the remaining inputs
are never read, and the deferred cleanup detaches and closes the connection. -/
theorem claim4_read_failure_detaches (now : Int) (db : Except Unit Int)
    (rest : List (Except Unit Message × Except Unit Int)) :
    handleWebSocket now ((Except.error (), db) :: rest) = ([], true) := rfl

/-- C5: the claim says oversized bodies are rejected with `MessageTooLarge`
before the store is reached. The code has no size check at all: with a
1001-character body (beyond the `max=1000` of `CreateMessageRequest`'s never
enforced `validate` tag), the WebSocket path invokes the store and broadcasts
the message, and the REST path invokes the store and answers 201. -/
theorem claim5_no_size_check :
    1000 < longContent.length ∧
    (wsStep (.ok longMsg) (.ok 3) 0).storeInvoked = true ∧
    (wsStep (.ok longMsg) (.ok 3) 0).enqueued =
      some { longMsg with createdAt := 0, id := 3 } ∧
    (createMessage (.ok longReq) (.ok 3) 0 true).storeInvoked = true ∧
    (createMessage (.ok longReq) (.ok 3) 0 true).status = 201 := by
  refine ⟨?_, rfl, rfl, rfl, rfl⟩
  simp only [longContent, String.length_mk, List.length_replicate]
  norm_num

/-- C6: the claim says removing a connection twice — once by the broadcast
router on write failure, once by the handler's deferred cleanup — has no
duplicate side effects beyond a single detach. The registry delete is indeed
idempotent, but each removal path decrements the `websocket_connections_active`
gauge unconditionally: after attach, router removal and handler cleanup the
gauge is −1 instead of the 0 a single detach leaves, so the double removal is
not a no-op. -/
theorem claim6_double_detach_double_decrement :
    (handlerCleanup 1 (broadcastRemove 1 (attachConn 1 ⟨∅, 0⟩))).clients =
      (broadcastRemove 1 (attachConn 1 ⟨∅, 0⟩)).clients ∧
    (broadcastRemove 1 (attachConn 1 ⟨∅, 0⟩)).gauge = 0 ∧
    (handlerCleanup 1 (broadcastRemove 1 (attachConn 1 ⟨∅, 0⟩))).gauge = -1 ∧
    handlerCleanup 1 (broadcastRemove 1 (attachConn 1 ⟨∅, 0⟩)) ≠
      broadcastRemove 1 (attachConn 1 ⟨∅, 0⟩) := by decide

/-- C7 counterexample: the claim says that after a successful store the REST
path always hands the message to the broadcast queue, blocking on overflow
rather than dropping. On the concrete input where the store succeeds but the
router is not at its receive point, `createMessage` answers 201 yet enqueues
nothing — the non-blocking `select` drops the send. -/
theorem claim7_counterexample :
    (createMessage (.ok sampleReq) (.ok 5) 0 false).status = 201 ∧
    (createMessage (.ok sampleReq) (.ok 5) 0 false).storeInvoked = true ∧
    (createMessage (.ok sampleReq) (.ok 5) 0 false).enqueued = none :=
  ⟨rfl, rfl, rfl⟩

/-- C7 amended: the REST path performs the same persist-first sequence as the
WebSocket handler — the store is invoked and nothing is enqueued on store
failure — but its hand-off differs: it is a non-blocking send on the unbuffered
broadcast channel, so the stored message is enqueued exactly when the router is
ready to receive and is silently dropped otherwise, whereas the WebSocket
path's blocking send always hands the stored message over. -/
theorem claim7_rest_nonblocking_enqueue (req : CreateMessageRequest)
    (body : Except Unit CreateMessageRequest) (m : Message)
    (i now : Int) (ready : Bool) (e : Unit) :
    (createMessage (.ok req) (.ok i) now ready).storeInvoked = true ∧
    (createMessage (.ok req) (.ok i) now ready).status = 201 ∧
    (createMessage (.ok req) (.ok i) now ready).enqueued =
      (if ready then
        some { id := i, userId := req.userId, username := req.username,
               content := req.content, createdAt := now }
       else none) ∧
    (createMessage body (.error e) now ready).enqueued = none ∧
    (wsStep (.ok m) (.ok i) now).enqueued =
      some { m with createdAt := now, id := i } := by
  refine ⟨rfl, rfl, rfl, ?_, rfl⟩
  cases body <;> rfl

/-- C8 counterexample: the claim says the store assigns the creation
timestamp atomically with the durable write. On the concrete input `staleMsg`
(caller timestamp 5) against a database whose clock reads 99, the row the
INSERT writes carries `created_at = 5` — the caller's field value, not the
persistence-time clock — so the store does not assign the timestamp. -/
theorem claim8_counterexample :
    ¬ ((insertedRow staleMsg dbEnv99).createdAt = dbEnv99.dbNow) ∧
    (insertedRow staleMsg dbEnv99).createdAt = staleMsg.createdAt := by decide

/-- C8 amended: the store assigns only the identifier atomically with the
write — the caller-supplied id is ignored (the INSERT never mentions it, and
the scanned result id is the database's) — while the creation timestamp stored
is the caller's `CreatedAt` field passed through unchanged (`env.dbNow` plays
no part); that field is set by the handler to its own `time.Now()` just before
the call, overwriting any client-supplied value, as the last conjunct shows
for the WebSocket path. -/
theorem claim8_store_assigns_only_id (msg : Message) (env : DBEnv) (now : Int) :
    saveMessage (.ok env.nextId) msg = .ok { msg with id := env.nextId } ∧
    insertedRow msg env =
      { id := env.nextId, userId := msg.userId, username := msg.username,
        content := msg.content, createdAt := msg.createdAt } ∧
    (wsStep (.ok msg) (.ok env.nextId) now).enqueued =
      some { msg with createdAt := now, id := env.nextId } :=
  ⟨rfl, rfl, rfl⟩

/-- C9: the uptime `getStats` reports is `time.Since(time.Now())`, the
elapsed time between a clock read and itself — zero, whatever the process
start time, the table counts or the connection set. -/
theorem claim9_uptime_always_zero (messageCount userCount : Nat)
    (clients : Finset Nat) (startTime now : Int) :
    (getStats messageCount userCount clients startTime now).uptime = 0 := by
  simp [getStats]

/-- C10: a successful `saveMessage` changes only the `ID` field of the
message — it becomes the database-returned id, while `UserID`, `Username`,
`Content` and `CreatedAt` keep exactly the values the caller passed — and on
the WebSocket path the message handed to the broadcast channel is exactly that
stored value. -/
theorem claim10_store_frame (m : Message) (i now : Int) :
    saveMessage (.ok i) m = .ok { m with id := i } ∧
    ({ m with id := i } : Message).userId = m.userId ∧
    ({ m with id := i } : Message).username = m.username ∧
    ({ m with id := i } : Message).content = m.content ∧
    ({ m with id := i } : Message).createdAt = m.createdAt ∧
    ({ m with id := i } : Message).id = i ∧
    (wsStep (.ok m) (.ok i) now).enqueued =
      some { m with createdAt := now, id := i } :=
  ⟨rfl, rfl, rfl, rfl, rfl, rfl, rfl⟩

end ChatMonitoring
